import Mathlib

/-!
Shallow embedding of the ingestion pipeline of `linkedin_data_processor.py`
(class `LinkedInDataProcessor`): column-name normalization, pandas-based
type inference, table creation, row insertion, the CSV parse-strategy chain
and the per-file orchestration loop, together with theorems checking the
behavioural claims of the specification against this model.
-/

namespace LinkedInDataProcessor

/-- Value stored in one cell of a row as seen by the row loader: SQLite
receives either a concrete (string) value or NULL. -/
inductive Val where
  | null : Val
  | str : String → Val
  deriving DecidableEq, Repr

/-- Character class of the replacement regex in `_normalize_column_name`
(line 30): ASCII letters, digits and underscore are kept, everything else
is replaced by an underscore. -/
def keepChar (c : Char) : Bool :=
  ('a' ≤ c && c ≤ 'z') || ('A' ≤ c && c ≤ 'Z') || ('0' ≤ c && c ≤ '9') || c = '_'

/-- Stage 1 of `_normalize_column_name`: replace every character outside the
allowed class by an underscore. -/
def replaceSpecial (cs : List Char) : List Char :=
  cs.map (fun c => if keepChar c then c else '_')

/-- Stage 2 of `_normalize_column_name`: Python `strip` of underscores, that
is removal of leading and trailing underscores. -/
def stripUnderscores (cs : List Char) : List Char :=
  ((cs.dropWhile (fun c => c = '_')).reverse.dropWhile (fun c => c = '_')).reverse

/-- Stage 3 of `_normalize_column_name`: collapse every run of underscores
to a single underscore. -/
def collapseUnderscores : List Char → List Char
  | [] => []
  | [c] => [c]
  | a :: b :: rest =>
    if a = '_' && b = '_' then collapseUnderscores (b :: rest)
    else a :: collapseUnderscores (b :: rest)

/-- Stage 4 of `_normalize_column_name`: lowercase every character. At this
point only ASCII letters, digits and underscores remain, so the ASCII
lowering agrees with the Python one. -/
def lowerAll (cs : List Char) : List Char :=
  cs.map Char.toLower

/-- Stage 5 of `_normalize_column_name` (lines 39 to 42): the reserved-word
remap applied after normalization. -/
def remapReserved (s : String) : String :=
  if s = "date" then "date_col"
  else if s = "from" || s = "to" || s = "text" then "col_" ++ s
  else s

/-- Direct embedding of `_normalize_column_name`. Lines 44 to 46 of the
source are an identity assignment and lines 48 to 52 only print, so neither
contributes to the returned value. -/
def normalize_column_name (s : String) : String :=
  remapReserved (String.mk (lowerAll (collapseUnderscores (stripUnderscores (replaceSpecial s.data)))))

/-- Mapping from original header to normalized identifier, built exactly as
in `_create_table` (lines 62 to 66): one entry per original column, in
header order. -/
def buildColumnMapping (headers : List String) : List (String × String) :=
  headers.map (fun h => (h, normalize_column_name h))

/-- Identifier quoting used by `_create_table` and `_insert_data`. -/
def quoteIdent (s : String) : String :=
  "\"" ++ s ++ "\""

/-- Column clauses of the CREATE statement built in `_create_table`
(lines 67 to 70): quoted normalized name followed by the inferred type. -/
def createColumnDefs (headers : List String) (dtypes : List String) : List String :=
  (headers.zip dtypes).map (fun p => quoteIdent (normalize_column_name p.1) ++ " " ++ p.2)

/-- Models SQLite executing the generated CREATE TABLE statement: SQLite
rejects a statement whose column names are not pairwise distinct with a
duplicate-column-name error, which `_create_table` re-raises to the
per-file boundary. -/
def sqliteCreate (normCols : List String) : Except String (List String) :=
  if normCols.Nodup then .ok normCols else .error "duplicate column name"

/-- C8: column normalization is the pure staged function described by the
specification: replace every character outside the allowed class by an
underscore, strip leading and trailing underscores, collapse underscore
runs, lowercase, then remap the reserved words; in particular `date` maps
to `date_col`, `login_date` is unchanged and `From` maps to `col_from`.
Being a plain function of the header string, it is deterministic within a
run. -/
theorem normalization_stages_and_examples :
    normalize_column_name "date" = "date_col" ∧
    normalize_column_name "login_date" = "login_date" ∧
    normalize_column_name "From" = "col_from" ∧
    ∀ s : String, normalize_column_name s =
      remapReserved (String.mk (lowerAll (collapseUnderscores (stripUnderscores (replaceSpecial s.data))))) := by
  refine ⟨by decide, by decide, by decide, fun s => rfl⟩

/-- C1: the code does not disambiguate colliding headers. For the header
pair `Email!`, `Email#` both entries of the column mapping receive the same
normalized identifier `email`, the values of the mapping are not pairwise
distinct, and the generated CREATE TABLE column list is rejected by SQLite
with a duplicate-column error, so the file is aborted instead of producing
two distinct columns. -/
theorem collision_not_disambiguated :
    (buildColumnMapping ["Email!", "Email#"]).map Prod.snd = ["email", "email"] ∧
    ¬ ((buildColumnMapping ["Email!", "Email#"]).map Prod.snd).Nodup ∧
    sqliteCreate ((buildColumnMapping ["Email!", "Email#"]).map Prod.snd) =
      .error "duplicate column name" := by
  refine ⟨by decide, by decide, by rfl⟩

/-- Drops a single leading sign character, as the numeric converters of the
pandas CSV reader do. -/
def stripSign : List Char → List Char
  | '+' :: r => r
  | '-' :: r => r
  | r => r

/-- All characters are ASCII digits. -/
def allDigits (cs : List Char) : Bool :=
  cs.all (fun c => '0' ≤ c && c ≤ '9')

/-- Models the integer conversion of the pandas CSV reader: an optional sign
followed by a nonempty digit run. -/
def isIntLit (s : String) : Bool :=
  let cs := stripSign s.data
  !cs.isEmpty && allDigits cs

/-- Mantissa of a float literal: digits with at most one decimal point and
at least one digit overall. -/
def isMantissa (cs : List Char) : Bool :=
  match cs.splitOn '.' with
  | [a] => !a.isEmpty && allDigits a
  | [a, b] => !(a.isEmpty && b.isEmpty) && allDigits a && allDigits b
  | _ => false

/-- Models the float conversion of the pandas CSV reader: an optional sign,
a mantissa, and an optional exponent part. -/
def isFloatLit (s : String) : Bool :=
  let cs := (stripSign s.data).map (fun c => if c = 'E' then 'e' else c)
  match cs.splitOn 'e' with
  | [m] => isMantissa m
  | [m, ex] =>
    isMantissa m && (let e := stripSign ex; !e.isEmpty && allDigits e)
  | _ => false

/-- Dtype of a pandas series, the input inspected by `_infer_data_type`. -/
inductive Dtype where
  | int64 | float64 | datetime64 | objectD
  deriving DecidableEq, Repr

/-- A cell contributes to an integer dtype when it is a present integer
literal; a missing cell (NaN) rules the integer dtype out. -/
def cellIsInt : Option String → Bool
  | some s => isIntLit s
  | none => false

/-- A cell contributes to a float dtype when it is a present numeric literal
or a missing cell, which pandas stores as NaN. -/
def cellIsFloat : Option String → Bool
  | some s => isIntLit s || isFloatLit s
  | none => true

/-- Models the dtype pandas assigns to one column read from CSV text when no
parse-dates option is given, as in `process_directory`: all integer cells
with no missing value give int64; otherwise all numeric-or-missing cells
give float64 (so an all-missing nonempty column is float64); anything else,
including date-like strings, stays object. A datetime64 dtype is never
produced from CSV text. -/
def series_dtype (col : List (Option String)) : Dtype :=
  if col.isEmpty then .objectD
  else if col.all cellIsInt then .int64
  else if col.all cellIsFloat then .float64
  else .objectD

/-- Direct embedding of `_infer_data_type` (lines 15 to 25): a dtype switch
mapping integer dtypes to INTEGER, float dtypes to REAL, datetime dtypes to
TIMESTAMP and everything else to TEXT. -/
def infer_data_type (d : Dtype) : String :=
  match d with
  | .int64 => "INTEGER"
  | .float64 => "REAL"
  | .datetime64 => "TIMESTAMP"
  | .objectD => "TEXT"

/-- C2 counterexample: the column of date strings `2020-01-01`, `2020-02-02`
keeps the object dtype after CSV reading, so `_infer_data_type` classifies
it as TEXT, not TIMESTAMP as the claim states. -/
theorem timestamp_inference_counterexample :
    infer_data_type (series_dtype [some "2020-01-01", some "2020-02-02"]) = "TEXT" ∧
    infer_data_type (series_dtype [some "2020-01-01", some "2020-02-02"]) ≠ "TIMESTAMP" := by
  refine ⟨by decide, by decide⟩

/-- Helper: an integer cell is also a float cell. -/
theorem cellIsInt_imp_cellIsFloat (c : Option String) :
    cellIsInt c = true → cellIsFloat c = true := by
  cases c with
  | none => intro h; simp [cellIsInt] at h
  | some s => intro h; simp [cellIsInt] at h; simp [cellIsFloat, h]

/-- C2 (amended): `_infer_data_type` classifies by the pandas dtype of the
parsed column, not by value-level timestamp parsing. Columns whose cells are
all integer literals classify as INTEGER; columns whose cells are numeric or
missing (but not all integer) classify as REAL, including all-missing
nonempty columns; everything else, including date-like strings such as
`2020-01-01`, classifies as TEXT; TIMESTAMP is returned only for a
datetime64 dtype, which CSV text parsing never produces. -/
theorem inference_follows_dtype :
    infer_data_type (series_dtype [some "1", some "2", some "3"]) = "INTEGER" ∧
    infer_data_type (series_dtype [some "1.0", some "2"]) = "REAL" ∧
    infer_data_type (series_dtype [some "a", some "1"]) = "TEXT" ∧
    infer_data_type (series_dtype [some "2020-01-01", some "2020-02-02"]) = "TEXT" ∧
    (∀ col : List (Option String), series_dtype col ≠ Dtype.datetime64) ∧
    (∀ col : List (Option String), col ≠ [] → col.all cellIsInt = true →
      infer_data_type (series_dtype col) = "INTEGER") ∧
    (∀ col : List (Option String), col ≠ [] → col.all cellIsInt = false →
      col.all cellIsFloat = true → infer_data_type (series_dtype col) = "REAL") ∧
    (∀ col : List (Option String), col.all cellIsFloat = false →
      infer_data_type (series_dtype col) = "TEXT") ∧
    (∀ n : Nat, n ≠ 0 →
      infer_data_type (series_dtype (List.replicate n none)) = "REAL") := by
  refine ⟨by decide, by decide, by decide, by decide, ?_, ?_, ?_, ?_, ?_⟩
  · intro col
    unfold series_dtype
    split_ifs <;> simp [infer_data_type]
  · intro col h1 h2
    simp [series_dtype, h2, List.isEmpty_iff, h1, infer_data_type]
  · intro col h1 h2 h3
    simp [series_dtype, h2, h3, List.isEmpty_iff, h1, infer_data_type]
  · intro col h1
    have h2 : col.all cellIsInt = false := by
      by_contra hc
      have hall : col.all cellIsInt = true := by
        cases hq : col.all cellIsInt with
        | false => exact absurd hq hc
        | true => rfl
      have : col.all cellIsFloat = true := by
        rw [List.all_eq_true] at hall ⊢
        intro c hcmem
        exact cellIsInt_imp_cellIsFloat c (hall c hcmem)
      rw [this] at h1
      exact Bool.noConfusion h1
    by_cases he : col = []
    · subst he
      simp [series_dtype, infer_data_type]
    · simp [series_dtype, h1, h2, List.isEmpty_iff, he, infer_data_type]
  · intro n hn
    have h1 : (List.replicate n none : List (Option String)).all cellIsInt = false := by
      cases n with
      | zero => exact absurd rfl hn
      | succ m => simp [List.replicate, List.all_cons, cellIsInt]
    have h2 : (List.replicate n none : List (Option String)).all cellIsFloat = true := by
      rw [List.all_eq_true]
      intro c hc
      have := List.eq_of_mem_replicate hc
      subst this
      rfl
    have he : (List.replicate n none : List (Option String)) ≠ [] := by
      cases n with
      | zero => exact absurd rfl hn
      | succ m => simp
    simp [series_dtype, h1, h2, List.isEmpty_iff, he, infer_data_type, hn]

/-- Witness for the amended C2 theorem at a concrete one-cell column. -/
theorem inference_follows_dtype_witness :
    infer_data_type (series_dtype [some "42"]) = "INTEGER" :=
  inference_follows_dtype.2.2.2.2.2.1 [some "42"] (by decide) (by decide)

/-- pandas `Series.get` on a row of a data frame: the value at a key, NULL
(None) when the key is absent. A row is the list of (original header, value)
pairs in source column order. -/
def seriesGet (row : List (String × Val)) (k : String) : Val :=
  match row.find? (fun p => p.1 == k) with
  | some p => p.2
  | none => .null

/-- The reverse lookup of `_insert_data` (line 155): the first original
header whose mapping value is the database column, with the column itself as
the fallback when no header maps to it. -/
def reverseLookup (mapping : List (String × String)) (c : String) : String :=
  match mapping.find? (fun p => p.2 == c) with
  | some p => p.1
  | none => c

/-- Value emitted by `_insert_data` for one database column of one row
(lines 153 to 157). -/
def insertValueFor (mapping : List (String × String)) (row : List (String × Val))
    (c : String) : Val :=
  seriesGet row (reverseLookup mapping c)

/-- The insert statement and batched tuples built by `_insert_data`
(lines 144 to 158) from the column names read back from the database: the
statement lists the database columns in database order and each tuple holds
one resolved value per database column, in that same order. -/
def insert_data (mapping : List (String × String)) (tbl : String)
    (dbCols : List String) (rows : List (List (String × Val))) :
    String × List (List Val) :=
  let columns_str := String.intercalate ", " (dbCols.map quoteIdent)
  let placeholders := String.intercalate ", " (dbCols.map (fun _ => "?"))
  ("INSERT INTO " ++ tbl ++ " (" ++ columns_str ++ ") VALUES (" ++ placeholders ++ ")",
    rows.map (fun r => dbCols.map (insertValueFor mapping r)))

set_option linter.unusedVariables false in
/-- Full embedding of `_insert_data` including the locally computed
`normalized_cols` list (lines 117 to 124), which the rest of the function
never reads, exactly as in the source. -/
def insert_data_full (mapping : List (String × String)) (tbl : String)
    (dfCols : List String) (dbCols : List String)
    (rows : List (List (String × Val))) : String × List (List Val) :=
  let normalized_cols := dfCols.map (fun col =>
    match mapping.find? (fun p => p.1 == col) with
    | some p => p.2
    | none => normalize_column_name col)
  insert_data mapping tbl dbCols rows

/-- C10: the locally computed `normalized_cols` list in `_insert_data` is
dead: the emitted insert statement and inserted tuples depend only on the
column names read back from the database, the column mapping and the rows,
so removing the computation yields an observably equivalent function. -/
theorem normalized_cols_is_dead_code :
    ∀ (mapping : List (String × String)) (tbl : String) (dfCols dbCols : List String)
      (rows : List (List (String × Val))),
      insert_data_full mapping tbl dfCols dbCols rows =
        insert_data mapping tbl dbCols rows :=
  fun _ _ _ _ _ => rfl

/-- C4 counterexample: a database column that no original header maps to is
not always given NULL. With the mapping sending `From` to `col_from`, no
header maps to the database column `From`, yet the row value emitted for it
is the value of the literal source header `From`, because the fallback of
the reverse lookup is the column name itself and `Series.get` then finds
that header in the row. -/
theorem null_substitution_counterexample :
    (([("From", "col_from")] : List (String × String)).all
      (fun p => !(p.2 == "From")) = true) ∧
    insertValueFor [("From", "col_from")] [("From", Val.str "x")] "From" = Val.str "x" ∧
    (insert_data_full [("From", "col_from")] (quoteIdent "t") ["From"] ["From"]
      [[("From", Val.str "x")]]).2 = [[Val.str "x"]] ∧
    Val.str "x" ≠ Val.null := by
  refine ⟨by decide, by decide, by decide, by decide⟩

/-- C4 (amended): the row loader inserts in the order of the column names
read back from the database; for a database column some header maps to, it
emits the row value of the first such header; for a database column that no
header maps to and that is not itself a header of the row, it emits NULL
rather than failing the row (when the column name is itself a header of the
row, the fallback emits that header value instead of NULL). -/
theorem row_loader_resolution :
    ∀ (mapping : List (String × String)) (tbl : String) (dfCols dbCols : List String)
      (rows : List (List (String × Val))),
      ((insert_data_full mapping tbl dfCols dbCols rows).2 =
        rows.map (fun r => dbCols.map (insertValueFor mapping r))) ∧
      (∀ (c : String) (p : String × String),
        mapping.find? (fun q => q.2 == c) = some p →
        ∀ r : List (String × Val), insertValueFor mapping r c = seriesGet r p.1) ∧
      (∀ (c : String) (r : List (String × Val)),
        mapping.find? (fun q => q.2 == c) = none →
        r.find? (fun q => q.1 == c) = none →
        insertValueFor mapping r c = Val.null) := by
  intro mapping tbl dfCols dbCols rows
  refine ⟨rfl, ?_, ?_⟩
  · intro c p hfind r
    simp [insertValueFor, reverseLookup, hfind]
  · intro c r hm hr
    simp [insertValueFor, reverseLookup, hm, seriesGet, hr]

/-- Witness for the amended C4 theorem: a database column that neither the
mapping nor the row mentions resolves to NULL. -/
theorem row_loader_resolution_witness :
    insertValueFor [("a", "a_n")] [] "zz" = Val.null :=
  (row_loader_resolution [("a", "a_n")] "t" [] [] []).2.2 "zz" [] (by decide) (by decide)

/-- Whitespace stripped by Python `str.strip`. -/
def isSpaceChar (c : Char) : Bool :=
  c = ' ' || c = '\t' || c = '\n' || c = '\r'

/-- Python `str.strip` applied to a raw line of the manual fallback
(line 220 of the source). -/
def pyStrip (s : String) : String :=
  String.mk (((s.data.dropWhile isSpaceChar).reverse.dropWhile isSpaceChar).reverse)

/-- The apostrophe character, written by code point to keep the source plain. -/
def aposChar : Char := Char.ofNat 39

/-- Scans up to `n` remaining double quotes and reports whether no
apostrophe occurs before the last of them, the shape required by the
quote-counting alternative of the manual split regex. -/
def cleanBeforeQuotes : Nat → List Char → Bool
  | _, [] => true
  | 0, _ => true
  | n + 1, c :: rest =>
    if c = '"' then cleanBeforeQuotes n rest
    else if c = aposChar then false
    else cleanBeforeQuotes (n + 1) rest

/-- Lookahead of the manual split regex in `process_directory` (line 221): a
comma is a split point when the rest of the line either contains no double
quote at all, or contains exactly three double quotes with no apostrophe
before the third one. -/
def splitLookahead (rest : List Char) : Bool :=
  (rest.count '"' == 0) || ((rest.count '"' == 3) && cleanBeforeQuotes 3 rest)

/-- Splits one raw line at every comma whose lookahead matches, accumulating
the current field in reverse, as `re.split` does for the zero-width
lookahead pattern of the manual fallback. -/
def manualSplitAux : List Char → List Char → List String
  | [], acc => [String.mk acc.reverse]
  | c :: rest, acc =>
    if c = ',' && splitLookahead rest then
      String.mk acc.reverse :: manualSplitAux rest []
    else
      manualSplitAux rest (c :: acc)

/-- Field list of one line under the manual fallback split. -/
def manualSplitLine (line : String) : List String :=
  manualSplitAux line.data []

/-- Manual fallback parse (strategy 7, lines 217 to 223): strip each raw
line, drop blank lines, split every remaining line, use the first line as
headers and the remaining lines as rows whose cells are all present raw
strings, never missing values. -/
def manualRowsOf (lines : List String) : List String × List (List (Option String)) :=
  let ls := (lines.map pyStrip).filter (fun l => !(l == ""))
  match ls with
  | [] => ([], [])
  | h :: rest => (manualSplitLine h, rest.map (fun l => (manualSplitLine l).map some))

/-- pandas `read_csv` under strategies (1) to (6) reads an empty field as
missing (NaN) and a nonempty field as its string content. -/
def readCsvCell (s : String) : Option String :=
  if s = "" then none else some s

/-- Embedding of lines 230 to 232 of `process_directory`:
`df.dropna(subset=[df.columns[0]])` guarded by a nonempty column list. It
removes exactly the rows whose first cell is missing; a present empty string
is not missing and is kept. -/
def dropFirstColMissing (cols : List String) (rows : List (List (Option String))) :
    List (List (Option String)) :=
  if cols.isEmpty then rows
  else rows.filter (fun r => (r.headD none).isSome)

/-- Helper: the manual split of any line yields at least one field. -/
theorem manualSplitAux_ne_nil : ∀ (cs acc : List Char), manualSplitAux cs acc ≠ [] := by
  intro cs
  induction cs with
  | nil => intro acc; simp [manualSplitAux]
  | cons c rest ih =>
    intro acc
    simp only [manualSplitAux]
    split
    · simp
    · exact ih _

/-- C6 counterexample: under the manual fallback a data row whose first
field is the empty string is parsed as a present empty-string cell, and the
drop step keeps it, while the claim states such a row is dropped for every
strategy. -/
theorem empty_first_field_kept_by_manual_fallback :
    manualRowsOf ["h1,h2", ",x"] = (["h1", "h2"], [[some "", some "x"]]) ∧
    dropFirstColMissing ["h1", "h2"] [[some "", some "x"]] = [[some "", some "x"]] := by
  refine ⟨by decide, by decide⟩

/-- C6 (amended): the drop step removes exactly the rows whose first cell is
missing. Under strategies (1) to (6) an empty first field is read as
missing, so such rows are dropped, and rows with a present nonmissing first
cell are kept; under the manual fallback every cell is a present raw string,
so no manual row is ever dropped, including rows whose first field is the
empty string. -/
theorem first_column_null_drop :
    (∀ (cols fs : List String) (rows : List (List (Option String))),
      cols ≠ [] → fs.head? = some "" →
      dropFirstColMissing cols ((fs.map readCsvCell) :: rows) =
        dropFirstColMissing cols rows) ∧
    (∀ (cols : List String) (r : List (Option String))
      (rows : List (List (Option String))),
      cols ≠ [] → (r.headD none).isSome = true →
      dropFirstColMissing cols (r :: rows) = r :: dropFirstColMissing cols rows) ∧
    (∀ (cols lines : List String),
      cols ≠ [] →
      dropFirstColMissing cols (manualRowsOf lines).2 = (manualRowsOf lines).2) := by
  refine ⟨?_, ?_, ?_⟩
  · intro cols fs rows hc hf
    cases fs with
    | nil => simp at hf
    | cons f fs' =>
      simp only [List.head?] at hf
      have hf' : f = "" := by injection hf
      subst hf'
      simp [dropFirstColMissing, List.isEmpty_iff, hc, readCsvCell]
  · intro cols r rows hc hr
    simp only [dropFirstColMissing, List.isEmpty_iff]
    rw [if_neg hc, if_neg hc, List.filter_cons]
    cases r with
    | nil => simp [List.headD] at hr
    | cons a as =>
      simp only [List.headD] at hr
      simp [hr]
  · intro cols lines hc
    simp only [dropFirstColMissing, List.isEmpty_iff]
    rw [if_neg hc]
    apply List.filter_eq_self.mpr
    intro r hr
    unfold manualRowsOf at hr
    simp only [] at hr
    split at hr
    · simp at hr
    · simp only [List.mem_map] at hr
      obtain ⟨l, _, hl⟩ := hr
      subst hl
      cases hml : manualSplitLine l with
      | nil => exact absurd hml (manualSplitAux_ne_nil l.data [])
      | cons x xs => simp [hml]

/-- Witness for the amended C6 theorem: a read-csv row with an empty first
field is dropped. -/
theorem first_column_null_drop_witness :
    dropFirstColMissing ["h"] (([""].map readCsvCell) :: []) = dropFirstColMissing ["h"] [] :=
  first_column_null_drop.1 ["h"] [""] [] (by decide) (by decide)

/-- Delimiter argument of a `pd.read_csv` attempt in `process_directory`. -/
inductive Delim where
  | comma | semicolon
  deriving DecidableEq, Repr

/-- Quoting argument of a `pd.read_csv` attempt: the default, or the
explicitly passed double-quote character. -/
inductive QuoteOpt where
  | defaultQuoting | explicitDoubleQuote
  deriving DecidableEq, Repr

/-- Encoding argument of a read attempt. -/
inductive Enc where
  | utf8 | latin1
  deriving DecidableEq, Repr

/-- Exceptions relevant to the parse chain: `pandas.errors.ParserError`, the
`UnicodeDecodeError` raised when the bytes do not decode under the requested
encoding, and any other exception. -/
inductive PyErr where
  | parserError | unicodeDecodeError | otherError
  deriving DecidableEq, Repr

/-- Parsed table: headers plus rows of optional (possibly missing) cells. -/
structure Df where
  cols : List String
  rows : List (List (Option String))
  deriving DecidableEq, Repr

/-- The nested try/except parse chain of `process_directory` (lines 180 to
226), abstracted over the outcome of each read configuration. Every
`except` clause from strategy (1) to (6) catches only
`pandas.errors.ParserError`; any other exception, such as
`UnicodeDecodeError`, escapes to the per-file boundary, where the file is
skipped (`none`). Only the manual fallback (7) catches every exception and
skips the file itself on failure. -/
def parseChain (read : Delim → QuoteOpt → Enc → Except PyErr Df)
    (manual : Except PyErr Df) : Option Df :=
  match read .comma .defaultQuoting .utf8 with
  | .ok df => some df
  | .error e =>
    if e = .parserError then
      match read .semicolon .defaultQuoting .utf8 with
      | .ok df => some df
      | .error e =>
        if e = .parserError then
          match read .comma .explicitDoubleQuote .utf8 with
          | .ok df => some df
          | .error e =>
            if e = .parserError then
              match read .comma .defaultQuoting .latin1 with
              | .ok df => some df
              | .error e =>
                if e = .parserError then
                  match read .comma .explicitDoubleQuote .latin1 with
                  | .ok df => some df
                  | .error e =>
                    if e = .parserError then
                      match read .semicolon .defaultQuoting .latin1 with
                      | .ok df => some df
                      | .error e =>
                        if e = .parserError then
                          match manual with
                          | .ok df => some df
                          | .error _ => none
                        else none
                    else none
                else none
            else none
        else none
    else none

/-- Read behavior of a file that is valid CSV under Latin-1 but whose bytes
are not valid UTF-8: every attempt with UTF-8 encoding raises
`UnicodeDecodeError`, every attempt with Latin-1 encoding succeeds. The
manual fallback also opens the file with UTF-8 encoding and therefore also
raises. -/
def latin1OnlyRead (df : Df) : Delim → QuoteOpt → Enc → Except PyErr Df :=
  fun _ _ e =>
    match e with
    | .utf8 => .error .unicodeDecodeError
    | .latin1 => .ok df

/-- One-column sample table for the Latin-1 file. -/
def sampleDf : Df :=
  ⟨["name"], [[some "Rene"]]⟩

/-- C3: a file whose bytes are not valid UTF-8 but which parses under
Latin-1 with the default delimiter is nevertheless skipped: strategy (1)
raises `UnicodeDecodeError`, which the chain does not catch because it
advances only on `ParserError`, so strategies (4) to (6) are never reached
even though strategy (4) would succeed on this file. -/
theorem latin1_fallback_unreachable_for_encoding_failure :
    parseChain (latin1OnlyRead sampleDf) (.error .unicodeDecodeError) = none ∧
    latin1OnlyRead sampleDf .comma .defaultQuoting .latin1 = .ok sampleDf := by
  refine ⟨by rfl, by rfl⟩

/-- Observable events of one orchestration run, indexed by file position:
connection lifecycle, parse outcome, the DROP and CREATE of the schema
refresh with its commit, the batched insert with its commit, and the
per-file error log of the failure boundary. -/
inductive Ev where
  | openConn | closeConn
  | parsedFile (i : Nat) | parseSkipped (i : Nat)
  | dropTableEv (i : Nat) | createTableEv (i : Nat) | commitSchema (i : Nat)
  | insertRowsEv (i : Nat) | commitRows (i : Nat)
  | fileError (i : Nat)
  deriving DecidableEq, Repr

/-- Outcome abstraction for one source file: whether the parse chain
produced a table, whether the CREATE succeeded, whether the batched INSERT
succeeded. -/
structure FileBeh where
  parseOk : Bool
  createOk : Bool
  insertOk : Bool
  deriving DecidableEq, Repr

/-- Events emitted while processing one file inside the per-file try/except
of `process_directory` (lines 177 to 242): a failed parse skips the file; a
failed CREATE happens after the DROP and is logged at the boundary; a
successful CREATE is committed (line 106) before the insert starts; a
successful insert ends with the per-file row commit (line 162). Every
failure is caught at the file boundary. -/
def processOneFile (i : Nat) (b : FileBeh) : List Ev :=
  if !b.parseOk then [.parseSkipped i]
  else if !b.createOk then [.parsedFile i, .dropTableEv i, .fileError i]
  else if !b.insertOk then
    [.parsedFile i, .dropTableEv i, .createTableEv i, .commitSchema i, .fileError i]
  else
    [.parsedFile i, .dropTableEv i, .createTableEv i, .commitSchema i,
      .insertRowsEv i, .commitRows i]

/-- The sequential for-loop of `process_directory`: files are processed one
at a time in discovery order, each inside its own failure boundary. -/
def loopFiles : Nat → List FileBeh → List Ev
  | _, [] => []
  | i, b :: rest => processOneFile i b ++ loopFiles (i + 1) rest

/-- Event trace of one run: the connection is opened before the loop
(line 172) and closed after it (line 244). -/
def processDirectoryTrace (files : List FileBeh) : List Ev :=
  Ev.openConn :: loopFiles 0 files ++ [Ev.closeConn]

/-- Full embedding of `process_directory`: the `sqlite3.connect` call is not
inside any try block, so a failure to open the store is fatal to the whole
run; otherwise the run produces the full trace. -/
def process_directory (connectOk : Bool) (files : List FileBeh) :
    Except PyErr (List Ev) :=
  if connectOk then .ok (processDirectoryTrace files) else .error .otherError

/-- File index carried by an event, if any. -/
def evFile : Ev → Option Nat
  | .openConn => none
  | .closeConn => none
  | .parsedFile i => some i
  | .parseSkipped i => some i
  | .dropTableEv i => some i
  | .createTableEv i => some i
  | .commitSchema i => some i
  | .insertRowsEv i => some i
  | .commitRows i => some i
  | .fileError i => some i

/-- Discriminator for the connection-open event. -/
def isOpenEv : Ev → Bool
  | .openConn => true
  | _ => false

/-- Discriminator for the connection-close event. -/
def isCloseEv : Ev → Bool
  | .closeConn => true
  | _ => false

/-- Discriminator for the row commit of file `i`. -/
def isCommitRowsOf (i : Nat) : Ev → Bool
  | .commitRows j => j == i
  | _ => false

/-- Helper: the loop emits no connection events. -/
theorem loopFiles_no_conn : ∀ (k : Nat) (fs : List FileBeh),
    (loopFiles k fs).countP isOpenEv = 0 ∧ (loopFiles k fs).countP isCloseEv = 0 := by
  intro k fs
  induction fs generalizing k with
  | nil => simp [loopFiles]
  | cons b rest ih =>
    have hb : (processOneFile k b).countP isOpenEv = 0 ∧
        (processOneFile k b).countP isCloseEv = 0 := by
      unfold processOneFile
      split_ifs <;> simp [List.countP_cons, isOpenEv, isCloseEv]
    simp [loopFiles, List.countP_append, hb.1, hb.2, (ih (k + 1)).1, (ih (k + 1)).2]

/-- Helper: processing one file always emits an event tagged with that file. -/
theorem processOneFile_has_tag (k : Nat) (b : FileBeh) :
    ∃ e, e ∈ processOneFile k b ∧ evFile e = some k := by
  unfold processOneFile
  split_ifs
  · exact ⟨.parseSkipped k, by simp, rfl⟩
  · exact ⟨.parsedFile k, by simp, rfl⟩
  · exact ⟨.parsedFile k, by simp, rfl⟩
  · exact ⟨.parsedFile k, by simp, rfl⟩

/-- Helper: every file position in range is represented in the loop trace. -/
theorem loopFiles_covers : ∀ (fs : List FileBeh) (k j : Nat),
    k ≤ j → j < k + fs.length →
    ∃ e, e ∈ loopFiles k fs ∧ evFile e = some j := by
  intro fs
  induction fs with
  | nil => intro k j h1 h2; simp at h2; omega
  | cons b rest ih =>
    intro k j h1 h2
    by_cases hj : j = k
    · subst hj
      obtain ⟨e, he, ht⟩ := processOneFile_has_tag j b
      exact ⟨e, by simp [loopFiles, he], ht⟩
    · have h1' : k + 1 ≤ j := by omega
      have h2' : j < (k + 1) + rest.length := by simp at h2; omega
      obtain ⟨e, he, ht⟩ := ih (k + 1) j h1' h2'
      exact ⟨e, by simp [loopFiles, he], ht⟩

/-- C5: any per-file exception is caught at the file boundary and every file
is still reached, so no single failure terminates the run; the store
connection is opened exactly once before the first file and closed exactly
once after the last file regardless of per-file outcomes; only a failure of
`sqlite3.connect` at startup is fatal to the whole run. -/
theorem run_isolation_and_connection_lifecycle :
    ∀ files : List FileBeh,
      process_directory false files = .error .otherError ∧
      process_directory true files = .ok (processDirectoryTrace files) ∧
      (processDirectoryTrace files).countP isOpenEv = 1 ∧
      (processDirectoryTrace files).countP isCloseEv = 1 ∧
      (∀ i, i < files.length →
        ∃ e, e ∈ processDirectoryTrace files ∧ evFile e = some i) := by
  intro files
  refine ⟨rfl, rfl, ?_, ?_, ?_⟩
  · simp [processDirectoryTrace, List.countP_cons, List.countP_append,
      (loopFiles_no_conn 0 files).1, isOpenEv, isCloseEv]
  · simp [processDirectoryTrace, List.countP_cons, List.countP_append,
      (loopFiles_no_conn 0 files).2, isOpenEv, isCloseEv]
  · intro i hi
    obtain ⟨e, he, ht⟩ := loopFiles_covers files 0 i (Nat.zero_le i) (by simpa using hi)
    exact ⟨e, by simp [processDirectoryTrace, he], ht⟩

/-- Witness for C5: with one failing file and one succeeding file, the
second file is still represented in the trace. -/
theorem run_isolation_witness :
    ∃ e, e ∈ processDirectoryTrace [⟨false, true, true⟩, ⟨true, true, true⟩] ∧
      evFile e = some 1 :=
  (run_isolation_and_connection_lifecycle [⟨false, true, true⟩, ⟨true, true, true⟩]).2.2.2.2
    1 (by decide)

/-- Helper: all events of one file share that file index. -/
theorem processOneFile_tags_eq (k : Nat) (b : FileBeh) :
    ∀ e ∈ processOneFile k b, evFile e = some k := by
  unfold processOneFile
  split_ifs <;> intro e he <;>
    simp only [List.mem_cons, List.not_mem_nil, or_false] at he <;>
    first
      | (subst he; rfl)
      | (rcases he with rfl | rfl | rfl; all_goals rfl)
      | (rcases he with rfl | rfl | rfl | rfl | rfl; all_goals rfl)
      | (rcases he with rfl | rfl | rfl | rfl | rfl | rfl; all_goals rfl)

/-- Helper: a list of naturals all equal to `k` is sorted. -/
theorem sorted_of_all_eq : ∀ (l : List Nat) (k : Nat),
    (∀ t ∈ l, t = k) → l.Sorted (fun a b => a ≤ b) := by
  intro l k
  induction l with
  | nil => intro h; simp [List.Sorted]
  | cons a as ih =>
    intro h
    refine List.Pairwise.cons ?_ (ih (fun t ht => h t (by simp [ht])))
    intro y hy
    rw [h a (by simp), h y (by simp [hy])]

/-- Helper: tags appearing in the loop trace from position `k` are at least
`k`. -/
theorem loopFiles_tags_ge : ∀ (fs : List FileBeh) (k t : Nat),
    t ∈ (loopFiles k fs).filterMap evFile → k ≤ t := by
  intro fs
  induction fs with
  | nil => intro k t ht; simp [loopFiles] at ht
  | cons b rest ih =>
    intro k t ht
    rw [loopFiles, List.filterMap_append, List.mem_append] at ht
    rcases ht with h | h
    · rw [List.mem_filterMap] at h
      obtain ⟨e, he, hev⟩ := h
      have := processOneFile_tags_eq k b e he
      rw [this] at hev
      injection hev with h'
      omega
    · have := ih (k + 1) t h
      omega

/-- Helper: the tag sequence of the loop trace is sorted. -/
theorem loopFiles_tags_sorted : ∀ (fs : List FileBeh) (k : Nat),
    ((loopFiles k fs).filterMap evFile).Sorted (fun a b => a ≤ b) := by
  intro fs
  induction fs with
  | nil => intro k; simp [loopFiles, List.Sorted]
  | cons b rest ih =>
    intro k
    rw [loopFiles, List.filterMap_append]
    refine (List.pairwise_append).mpr ⟨?_, ih (k + 1), ?_⟩
    · apply sorted_of_all_eq _ k
      intro t ht
      rw [List.mem_filterMap] at ht
      obtain ⟨e, he, hev⟩ := ht
      have := processOneFile_tags_eq k b e he
      rw [this] at hev
      injection hev with h'
      omega
    · intro x hx y hy
      rw [List.mem_filterMap] at hx
      obtain ⟨e, he, hev⟩ := hx
      have := processOneFile_tags_eq k b e he
      rw [this] at hev
      injection hev with h'
      have := loopFiles_tags_ge rest (k + 1) y hy
      omega

/-- C9: table lifecycles of distinct files never interleave. The sequence of
file indices carried by the run trace is sorted, so every event of file F
precedes every event of any later file; on the success path the events of
one file are exactly parse, drop, create, schema commit, insert, then the
row commit, so the rows of F are committed exactly once, after all of F
rows are loaded, and before any event of file F+1; a file that fails before
its insert commits its rows zero times. -/
theorem table_lifecycles_do_not_interleave :
    ∀ files : List FileBeh,
      ((processDirectoryTrace files).filterMap evFile).Sorted (fun a b => a ≤ b) ∧
      (∀ i : Nat, processOneFile i ⟨true, true, true⟩ =
        [.parsedFile i, .dropTableEv i, .createTableEv i, .commitSchema i,
          .insertRowsEv i, .commitRows i]) ∧
      (∀ (i : Nat) (b : FileBeh), (processOneFile i b).countP (isCommitRowsOf i) =
        if b.parseOk && b.createOk && b.insertOk then 1 else 0) := by
  intro files
  refine ⟨?_, fun i => rfl, ?_⟩
  · have : (processDirectoryTrace files).filterMap evFile =
        (loopFiles 0 files).filterMap evFile := by
      simp [processDirectoryTrace, List.filterMap_cons, List.filterMap_append, evFile]
    rw [this]
    exact loopFiles_tags_sorted files 0
  · intro i b
    obtain ⟨p, c, ins⟩ := b
    cases p <;> cases c <;> cases ins <;>
      simp [processOneFile, isCommitRowsOf, List.countP_cons]

/-- Destination table contents: column list plus inserted tuples. -/
def TableData : Type :=
  List String × List (List Val)

/-- The relational store: a map from table name to its contents. -/
def Store : Type :=
  String → Option TableData

/-- Embedding of `_create_table` at the store level (lines 56 to 109): the
column mapping is rebuilt from the headers, DROP TABLE IF EXISTS always
runs, and the CREATE succeeds exactly when the normalized column names are
pairwise distinct (SQLite rejects duplicate column names); on success the
table exists with the normalized columns and no rows, on failure the
exception leaves the table dropped and the insert never runs. -/
def create_table (st : Store) (tbl : String) (headers : List String) :
    Store × Option (List (String × String)) :=
  let mapping := buildColumnMapping headers
  let cols := mapping.map Prod.snd
  if cols.Nodup then
    ((fun n => if n = tbl then some (cols, ([] : List (List Val))) else st n),
      some mapping)
  else
    ((fun n => if n = tbl then none else st n), none)

/-- One file through schema refresh and row loading (lines 234 to 236): the
table is dropped and recreated, the column order is read back from the
store itself, and the rows are inserted in that authoritative order. A
creation failure is caught at the file boundary and leaves the store after
the drop. -/
def ingestFile (st : Store) (tbl : String) (headers : List String)
    (rows : List (List (String × Val))) : Store :=
  match create_table st tbl headers with
  | (st1, none) => st1
  | (st1, some mapping) =>
    let dbCols := match st1 tbl with
      | some t => t.1
      | none => []
    let tuples := rows.map (fun r => dbCols.map (insertValueFor mapping r))
    fun n =>
      if n = tbl then
        match st1 tbl with
        | some t => some (t.1, tuples)
        | none => none
      else st1 n

/-- C7: ingesting the same unchanged source twice in succession yields the
same store as ingesting it once: the destructive refresh drops any existing
table of that name and rebuilds it from the current file only, so the
second load reproduces the first, with the same column set and row count. -/
theorem destructive_refresh_idempotent :
    ∀ (st : Store) (tbl : String) (headers : List String)
      (rows : List (List (String × Val))),
      ingestFile (ingestFile st tbl headers rows) tbl headers rows =
        ingestFile st tbl headers rows := by
  intro st tbl headers rows
  funext n
  by_cases hn : n = tbl <;>
    simp only [ingestFile, create_table] <;> split <;> simp [hn]

end LinkedInDataProcessor
